import Mathlib

/-!
# PAD_Packs: the deployment migration and the network configuration

A shallow embedding of `migrations/2_swap.js` and `truffle-config.js`.

The migration is a straight chain of awaited calls.  Each awaited call is answered by the
environment (the Truffle deployer, the contract abstractions and the network behind them);
the environment is a parameter of the model, and its answer to a call may depend on everything
that was issued before.  A rejected call throws, which ends the migration at that point.
Every call is recorded, with its outcome, in the order in which it was issued.
-/

namespace PADPacks

/-! ## Values that flow through the migration -/

/-- An account or contract address. -/
abbrev Address := Nat

/-- A 32-byte word, such as a role identifier. -/
abbrev Bytes32 := Nat

/-- The three contract artifacts required by the migration. -/
inductive Contract where
  | PaymentSplitter
  | Swap
  | PackNFT
  deriving DecidableEq, Repr

/-- A JavaScript scalar passed to a constructor. -/
inductive Value where
  | undefined
  | number (n : Nat)
  | string (s : String)
  | address (a : Address)
  deriving DecidableEq, Repr

/-- A constructor argument: a scalar or an array literal of scalars. -/
inductive Arg where
  | value (v : Value)
  | array (items : List Value)
  deriving DecidableEq, Repr

/-- A non-negative decimal numeral: `digits` with the point `scale` places from the right,
so that `0.035` is `⟨35, 3⟩` and `0.2` is `⟨2, 1⟩`. -/
structure Decimal where
  digits : Nat
  scale : Nat
  deriving DecidableEq, Repr

/-- The number denoted by a decimal numeral. -/
def Decimal.toRat (d : Decimal) : ℚ := (d.digits : ℚ) / (10 : ℚ) ^ d.scale

/-- Fractional digits of `m / 10 ^ s` that remain once trailing zeros are dropped. -/
def significantScale : Nat → Nat → Nat
  | _, 0 => 0
  | m, s + 1 => if m % 10 = 0 then significantScale (m / 10) s else s + 1

/-- The number of significant fractional digits of a decimal numeral. -/
def Decimal.fractionalDigits (d : Decimal) : Nat := significantScale d.digits d.scale

/-! ## Unit conversion -/

/-- Modelled from the spec: the error kind `UnitConversionError` of section 7, raised when an
amount cannot be represented exactly at the target precision. -/
inductive UnitConversionError where
  | notRepresentable
  deriving DecidableEq, Repr

/-- The two units named in the migration. -/
inductive UnitName where
  | eth
  | wei
  deriving DecidableEq, Repr

/-- Modelled from the spec: the decimal places of a unit relative to the smallest unit; the
native unit has 18 (section 8) and the smallest unit has none. -/
def UnitName.precision : UnitName → Nat
  | .eth => 18
  | .wei => 0

/-- Modelled from the spec: the conversion of a decimal amount into a whole number of smallest
units at a fixed precision (the body of `Units.convert`, which lives in the `ethereumjs-units`
package and not in the sources).  Following sections 4.3 and 7 it is exact, and fails when the
amount cannot be represented exactly at the precision. -/
def toSmallestUnit (precision : Nat) (d : Decimal) : Except UnitConversionError Nat :=
  if (d.digits * 10 ^ precision) % 10 ^ d.scale = 0 then
    .ok (d.digits * 10 ^ precision / 10 ^ d.scale)
  else
    .error .notRepresentable

/-- Modelled from the spec: `Units.convert(value, from, to)` of the `ethereumjs-units` package,
which is not part of the sources.  The value is brought to a whole number of smallest units
(failing when that is not exact) and written as a decimal of the target unit. -/
def Units.convert (value : Decimal) (src dst : UnitName) : Except UnitConversionError Decimal :=
  match toSmallestUnit src.precision value with
  | .ok n => .ok ⟨n, dst.precision⟩
  | .error e => .error e

/-! ## Remote calls and their record -/

/-- The awaited calls of the migration. -/
inductive Call where
  | deploy (contract : Contract) (args : List Arg)
  | deployed (contract : Contract)
  | MINTER_ROLE (target : Address)
  | grantRole (target : Address) (role : Bytes32) (account : Address)
  | addSwap (target : Address) (token : Address) (fee : Decimal) (amount : Nat)
  deriving DecidableEq, Repr

/-- What a fulfilled call resolves to, as far as the migration can observe it. -/
inductive Reply where
  | receipt
  | handle (address : Address)
  | word (value : Bytes32)
  deriving DecidableEq, Repr

/-- One issued call together with how it settled. -/
structure Event (ε : Type) where
  call : Call
  outcome : Except ε Reply

/-- The environment of a run.  Each field answers one kind of call, given the events so far:
`.ok` is a fulfilled promise, `.error` a rejected one (a revert, a timeout, a failed lookup). -/
structure Remote (ε : Type) where
  deploy : List (Event ε) → Contract → List Arg → Except ε Unit
  deployed : List (Event ε) → Contract → Except ε Address
  MINTER_ROLE : List (Event ε) → Address → Except ε Bytes32
  grantRole : List (Event ε) → Address → Bytes32 → Address → Except ε Unit
  addSwap : List (Event ε) → Address → Address → Decimal → Nat → Except ε Unit

/-- Why a run of the migration failed. -/
inductive Failure (ε : Type) where
  | conversion (e : UnitConversionError)
  | rejected (e : ε)

/-- Everything a run leaves behind: the calls it issued and the lines it printed. -/
structure Trace (ε : Type) where
  events : List (Event ε)
  console : List String

/-- An asynchronous computation of the migration: it reads the environment, extends the trace,
and either returns or throws. -/
def Script (ε α : Type) : Type := Remote ε → Trace ε → Except (Failure ε) α × Trace ε

/-- Returning a value. -/
def Script.pure {ε α : Type} (a : α) : Script ε α := fun _ t => (.ok a, t)

/-- Sequencing: a throw in the first part skips the rest. -/
def Script.bind {ε α β : Type} (m : Script ε α) (f : α → Script ε β) : Script ε β :=
  fun env t =>
    match m env t with
    | (.ok a, t1) => f a env t1
    | (.error e, t1) => (.error e, t1)

instance {ε : Type} : Monad (Script ε) where
  pure := Script.pure
  bind := Script.bind

/-- An awaited call: ask the environment, record the call with its outcome, and continue with
the value or throw the rejection. -/
def await {ε β : Type} (call : Call) (ask : Remote ε → List (Event ε) → Except ε β)
    (observe : β → Reply) : Script ε β :=
  fun env t =>
    match ask env t.events with
    | .ok b => (.ok b, { t with events := t.events ++ [⟨call, .ok (observe b)⟩] })
    | .error e => (.error (.rejected e), { t with events := t.events ++ [⟨call, .error e⟩] })

/-- A synchronous library call that may throw. -/
def evaluate {ε α : Type} (r : Except UnitConversionError α) : Script ε α :=
  fun _ t =>
    match r with
    | .ok a => (.ok a, t)
    | .error e => (.error (.conversion e), t)

/-- The call `deployer.deploy(Contract, ...args)`; the migration discards what it resolves to. -/
def deployer.deploy {ε : Type} (c : Contract) (args : List Arg) : Script ε Unit :=
  await (.deploy c args) (fun env h => env.deploy h c args) (fun _ => .receipt)

/-- The call `Contract.deployed()`, resolving to the instance, identified by its address. -/
def deployed {ε : Type} (c : Contract) : Script ε Address :=
  await (.deployed c) (fun env h => env.deployed h c) .handle

/-- The call `instance.MINTER_ROLE()`. -/
def MINTER_ROLE {ε : Type} (target : Address) : Script ε Bytes32 :=
  await (.MINTER_ROLE target) (fun env h => env.MINTER_ROLE h target) .word

/-- The call `instance.grantRole(role, account)`. -/
def grantRole {ε : Type} (target : Address) (role : Bytes32) (account : Address) :
    Script ε Unit :=
  await (.grantRole target role account) (fun env h => env.grantRole h target role account)
    (fun _ => .receipt)

/-- The call `instance.addSwap(token, fee, amount)`. -/
def addSwap {ε : Type} (target token : Address) (fee : Decimal) (amount : Nat) : Script ε Unit :=
  await (.addSwap target token fee amount) (fun env h => env.addSwap h target token fee amount)
    (fun _ => .receipt)

/-- The call `console.log(line)`. -/
def console.log {ε : Type} (line : String) : Script ε Unit :=
  fun _ t => (.ok (), { t with console := t.console ++ [line] })

/-! ## `migrations/2_swap.js` -/

/-- The element `accounts[i]`: `undefined` when the index is out of range. -/
def accountAt (accounts : List Address) (i : Nat) : Value :=
  match accounts[i]? with
  | some a => .address a
  | none => .undefined

/-- The array `payees`. -/
def payees (accounts : List Address) : List Value := [accountAt accounts 8, accountAt accounts 9]

/-- The array `shares`. -/
def shares : List Value := [.number 1, .number 1]

/-- The constant `tokenName`. -/
def tokenName : String := "PAD Pack"

/-- The constant `tokenSymbol`. -/
def tokenSymbol : String := "PADP"

/-- The constant `tokenBaseURI`. -/
def tokenBaseURI : String := "https://padtcg.com/"

/-- One entry of `swapData`. -/
structure Tier where
  fee : Decimal
  amount : Nat
  deriving DecidableEq, Repr

/-- The shape of `swapData`. -/
structure SwapData where
  silver : Tier
  gold : Tier
  deriving DecidableEq, Repr

/-- The object literal `swapData`; the number literals `0.035` and `0.2` are taken as the
decimal numerals they are written as. -/
def swapData : Except UnitConversionError SwapData :=
  match Units.convert ⟨35, 3⟩ .eth .wei with
  | .error e => .error e
  | .ok silverFee =>
    match Units.convert ⟨2, 1⟩ .eth .wei with
    | .error e => .error e
    | .ok goldFee => .ok { silver := ⟨silverFee, 50000⟩, gold := ⟨goldFee, 32000⟩ }

/-- The exported migration function (the `network` argument is not used by it). -/
def migration {ε : Type} (accounts : List Address) : Script ε Unit := do
  let swapData ← evaluate swapData
  deployer.deploy .PaymentSplitter [.array (payees accounts), .array shares]
  let paymentSplitterInstance ← deployed .PaymentSplitter
  deployer.deploy .Swap [.value (.address paymentSplitterInstance)]
  let swapInstance ← deployed .Swap
  deployer.deploy .PackNFT
    [.value (.string tokenName), .value (.string tokenSymbol), .value (.string tokenBaseURI)]
  let erc721Instance ← deployed .PackNFT
  console.log "Configuring contracts"
  console.log "---------------------"
  let minterRole ← MINTER_ROLE erc721Instance
  grantRole erc721Instance minterRole swapInstance
  addSwap swapInstance erc721Instance swapData.silver.fee swapData.silver.amount
  addSwap swapInstance erc721Instance swapData.gold.fee swapData.gold.amount

/-- A run of the migration from an empty trace. -/
def migrate {ε : Type} (env : Remote ε) (accounts : List Address) :
    Except (Failure ε) Unit × Trace ε :=
  migration accounts env ⟨[], []⟩

/-- How the run ended. -/
def outcome {ε : Type} (env : Remote ε) (accounts : List Address) : Except (Failure ε) Unit :=
  (migrate env accounts).1

/-- The calls the run issued, oldest first, each with how it settled. -/
def events {ε : Type} (env : Remote ε) (accounts : List Address) : List (Event ε) :=
  (migrate env accounts).2.events

/-! ## Reading a record of events -/

/-- Whether the call of an event was fulfilled. -/
def Event.fulfilled {ε : Type} (ev : Event ε) : Bool :=
  match ev.outcome with
  | .ok _ => true
  | .error _ => false

/-- A call without its arguments. -/
inductive Step where
  | deploy (contract : Contract)
  | deployed (contract : Contract)
  | MINTER_ROLE
  | grantRole
  | addSwap
  deriving DecidableEq, Repr

/-- The step a call belongs to. -/
def Call.step : Call → Step
  | .deploy c _ => .deploy c
  | .deployed c => .deployed c
  | .MINTER_ROLE _ => .MINTER_ROLE
  | .grantRole _ _ _ => .grantRole
  | .addSwap _ _ _ _ => .addSwap

/-- The awaited calls of the migration in source order (lines 17 to 32). -/
def pipeline : List Step :=
  [.deploy .PaymentSplitter, .deployed .PaymentSplitter, .deploy .Swap, .deployed .Swap,
    .deploy .PackNFT, .deployed .PackNFT, .MINTER_ROLE, .grantRole, .addSwap, .addSwap]

/-- Calls sent to the network: everything but the `deployed()` lookups of a handle. -/
def isRemoteOperation : Call → Bool
  | .deployed _ => false
  | _ => true

/-- The remote operations of the migration in source order: three deployments, the role read,
the role grant and the two tier registrations. -/
def operations : List Step :=
  [.deploy .PaymentSplitter, .deploy .Swap, .deploy .PackNFT, .MINTER_ROLE, .grantRole,
    .addSwap, .addSwap]

/-- The events of a record that are remote operations. -/
def remoteOperations {ε : Type} (evs : List (Event ε)) : List (Event ε) :=
  evs.filter (fun ev => isRemoteOperation ev.call)

/-- Calls made on a provisioned instance (the part after the banner is printed). -/
def isConfigurationCall : Call → Bool
  | .MINTER_ROLE _ => true
  | .grantRole _ _ _ => true
  | .addSwap _ _ _ _ => true
  | _ => false

/-- The configuration steps: the capability grant and the tier registrations. -/
def isConfigurationStep : Call → Bool
  | .grantRole _ _ _ => true
  | .addSwap _ _ _ _ => true
  | _ => false

/-- The tier registrations. -/
def isTierRegistration : Call → Bool
  | .addSwap _ _ _ _ => true
  | _ => false

/-- The contracts whose deployment was issued, in order. -/
def deployments {ε : Type} (evs : List (Event ε)) : List Contract :=
  evs.filterMap fun ev =>
    match ev.call with
    | .deploy c _ => some c
    | _ => none

/-- The contracts whose deployment was fulfilled, in order. -/
def provisioned {ε : Type} (evs : List (Event ε)) : List Contract :=
  evs.filterMap fun ev =>
    match ev.call, ev.outcome with
    | .deploy c _, .ok _ => some c
    | _, _ => none

/-- The constructor arguments of every deployment issued for a contract. -/
def constructorArgs {ε : Type} (evs : List (Event ε)) (c : Contract) : List (List Arg) :=
  evs.filterMap fun ev =>
    match ev.call with
    | .deploy c1 args => if c1 = c then some args else none
    | _ => none

/-- The handle table: each fulfilled `deployed()` lookup with the address it resolved to. -/
def handles {ε : Type} (evs : List (Event ε)) : List (Contract × Address) :=
  evs.filterMap fun ev =>
    match ev.call, ev.outcome with
    | .deployed c, .ok (.handle a) => some (c, a)
    | _, _ => none

/-- The tier registrations of a record, in order. -/
def tierRegistrations {ε : Type} (evs : List (Event ε)) : List (Event ε) :=
  evs.filter (fun ev => isTierRegistration ev.call)

/-- The configuration steps of a record, in order. -/
def configurationSteps {ε : Type} (evs : List (Event ε)) : List (Event ε) :=
  evs.filter (fun ev => isConfigurationStep ev.call)

/-- The two lines printed before the configuration calls. -/
def banner : List String := ["Configuring contracts", "---------------------"]

/-- The record of a run in which every call is fulfilled, given what the lookups and the role
read resolved to. -/
def fulfilledRun {ε : Type} (accounts : List Address) (ps sw nft : Address) (role : Bytes32) :
    List (Event ε) :=
  [ ⟨.deploy .PaymentSplitter [.array (payees accounts), .array shares], .ok .receipt⟩,
    ⟨.deployed .PaymentSplitter, .ok (.handle ps)⟩,
    ⟨.deploy .Swap [.value (.address ps)], .ok .receipt⟩,
    ⟨.deployed .Swap, .ok (.handle sw)⟩,
    ⟨.deploy .PackNFT
      [.value (.string tokenName), .value (.string tokenSymbol), .value (.string tokenBaseURI)],
      .ok .receipt⟩,
    ⟨.deployed .PackNFT, .ok (.handle nft)⟩,
    ⟨.MINTER_ROLE nft, .ok (.word role)⟩,
    ⟨.grantRole nft role sw, .ok .receipt⟩,
    ⟨.addSwap sw nft ⟨35000000000000000, 0⟩ 50000, .ok .receipt⟩,
    ⟨.addSwap sw nft ⟨200000000000000000, 0⟩ 32000, .ok .receipt⟩ ]

/-- A record cut short: the first `k` events as they are, then the next call rejected with `e`. -/
def rejectedAt {ε : Type} (evs : List (Event ε)) (k : Nat) (e : ε) : List (Event ε) :=
  evs.take k ++ ((evs.drop k).take 1).map (fun ev => ⟨ev.call, .error e⟩)

/-! ## Environments used as concrete instances -/

/-- The address an environment of the examples hands out for a contract. -/
def sampleAddress : Contract → Address
  | .PaymentSplitter => 100
  | .Swap => 200
  | .PackNFT => 300

/-- An environment that rejects exactly the call issued after `n` earlier ones, and fulfils
every other call. -/
def rejectingAfter (n : Nat) : Remote String where
  deploy := fun h _ _ => if h.length = n then .error "reverted" else .ok ()
  deployed := fun h c => if h.length = n then .error "not deployed" else .ok (sampleAddress c)
  MINTER_ROLE := fun h _ => if h.length = n then .error "reverted" else .ok 7
  grantRole := fun h _ _ _ => if h.length = n then .error "reverted" else .ok ()
  addSwap := fun h _ _ _ _ => if h.length = n then .error "reverted" else .ok ()

/-- An environment that fulfils every call of the migration. -/
def obliging : Remote String := rejectingAfter 10

/-- Ten accounts. -/
def tenAccounts : List Address := [10, 11, 12, 13, 14, 15, 16, 17, 18, 19]

/-! ## `truffle-config.js` -/

/-- The value of `network_id`: a number, or the wildcard `'*'`. -/
inductive NetworkId where
  | any
  | id (n : Nat)
  deriving DecidableEq, Repr

/-- The wallet provider a profile builds: `new HDWalletProvider(mnemonic, url)`. -/
structure Provider where
  mnemonic : String
  url : String
  deriving DecidableEq, Repr

/-- One entry of `networks`; a key the entry does not set is `none`. -/
structure NetworkProfile where
  host : Option String
  port : Option Nat
  provider : Option Provider
  network_id : NetworkId
  confirmations : Option Nat
  networkCheckTimeout : Option Nat
  timeoutBlocks : Option Nat
  skipDryRun : Option Bool
  gas : Option Nat
  gasPrice : Option Nat
  sender : Option Address
  deriving DecidableEq, Repr

/-- The object `module.exports.networks`, by profile name.  The identifiers `mnemonic` and
`deployAddress` are not bound in the file and are taken as parameters; the key `from` is the
field `sender`. -/
def networks (mnemonic : String) (deployAddress : Address) : List (String × NetworkProfile) :=
  [ ("development",
      ⟨some "127.0.0.1", some 7545, none, .any, none, none, none, none, none, none, none⟩),
    ("testnet",
      ⟨none, none, some ⟨mnemonic, "HTTP://127.0.0.1:7545"⟩, .id 97, some 10, some 4000000,
        some 800, some true, some 8500000, some 20000000000, some deployAddress⟩),
    ("bsc",
      ⟨none, none, some ⟨mnemonic, "https://bsc-dataseed.binance.org"⟩, .id 56, some 10,
        some 4000000, some 800, some true, some 8500000, some 20000000000,
        some deployAddress⟩) ]

/-! ## Evaluation lemmas -/

/-- The two conversions of `swapData` succeed, with these fees. -/
theorem swapData_eq : swapData = .ok
    { silver := ⟨⟨35000000000000000, 0⟩, 50000⟩, gold := ⟨⟨200000000000000000, 0⟩, 32000⟩ } := by
  rfl

/-- An awaited call followed by the rest of the script. -/
theorem await_bind {ε β α : Type} (call : Call) (ask : Remote ε → List (Event ε) → Except ε β)
    (observe : β → Reply) (f : β → Script ε α) (env : Remote ε) (t : Trace ε) :
    (await call ask observe >>= f) env t =
      match ask env t.events with
      | .ok b => f b env ⟨t.events ++ [⟨call, .ok (observe b)⟩], t.console⟩
      | .error e => (.error (.rejected e), ⟨t.events ++ [⟨call, .error e⟩], t.console⟩) := by
  show Script.bind (await call ask observe) f env t = _
  unfold Script.bind await
  cases ask env t.events <;> rfl

/-- An awaited call at the end of the script. -/
theorem await_last {ε β : Type} (call : Call) (ask : Remote ε → List (Event ε) → Except ε β)
    (observe : β → Reply) (env : Remote ε) (t : Trace ε) :
    (await call ask observe) env t =
      match ask env t.events with
      | .ok b => (.ok b, ⟨t.events ++ [⟨call, .ok (observe b)⟩], t.console⟩)
      | .error e => (.error (.rejected e), ⟨t.events ++ [⟨call, .error e⟩], t.console⟩) := by
  unfold await
  cases ask env t.events <;> rfl

/-- A library call that returns, followed by the rest of the script. -/
theorem evaluate_bind {ε α β : Type} (a : α) (f : α → Script ε β) (env : Remote ε)
    (t : Trace ε) : (evaluate (.ok a) >>= f) env t = f a env t := rfl

/-- A printed line followed by the rest of the script. -/
theorem log_bind {ε β : Type} (line : String) (f : Unit → Script ε β) (env : Remote ε)
    (t : Trace ε) :
    (console.log line >>= f) env t = f () env ⟨t.events, t.console ++ [line]⟩ := rfl

/-- Every run is the fulfilled record, or a prefix of it followed by one rejected call whose
error is the error of the run.  The banner is printed once the sixth call is fulfilled. -/
theorem migrate_shape {ε : Type} (env : Remote ε) (accounts : List Address) :
    ∃ ps sw nft role,
      migrate env accounts = (.ok (), ⟨fulfilledRun accounts ps sw nft role, banner⟩) ∨
      ∃ k e, k < 10 ∧ migrate env accounts =
        (.error (.rejected e),
          ⟨rejectedAt (fulfilledRun accounts ps sw nft role) k e,
            if k < 6 then [] else banner⟩) := by
  unfold migrate migration
  simp only [swapData_eq, evaluate_bind, deployer.deploy, deployed, MINTER_ROLE, grantRole,
    addSwap, await_bind, log_bind, await_last, List.nil_append, List.cons_append]
  repeat' split
  · rename_i _ _ _ _ ps _ _ _ _ _ sw _ _ _ _ _ nft _ _ role _ _ _ _ _ _ _ _ _ _
    exact ⟨ps, sw, nft, role, Or.inl rfl⟩
  · rename_i _ _ _ _ ps _ _ _ _ _ sw _ _ _ _ _ nft _ _ role _ _ _ _ _ _ _ _ e _
    exact ⟨ps, sw, nft, role, Or.inr ⟨9, e, by decide, rfl⟩⟩
  · rename_i _ _ _ _ ps _ _ _ _ _ sw _ _ _ _ _ nft _ _ role _ _ _ _ _ e _
    exact ⟨ps, sw, nft, role, Or.inr ⟨8, e, by decide, rfl⟩⟩
  · rename_i _ _ _ _ ps _ _ _ _ _ sw _ _ _ _ _ nft _ _ role _ _ e _
    exact ⟨ps, sw, nft, role, Or.inr ⟨7, e, by decide, rfl⟩⟩
  · rename_i _ _ _ _ ps _ _ _ _ _ sw _ _ _ _ _ nft _ _ e _
    exact ⟨ps, sw, nft, 0, Or.inr ⟨6, e, by decide, rfl⟩⟩
  · rename_i _ _ _ _ ps _ _ _ _ _ sw _ _ _ _ _ e _
    exact ⟨ps, sw, 0, 0, Or.inr ⟨5, e, by decide, rfl⟩⟩
  · rename_i _ _ _ _ ps _ _ _ _ _ sw _ _ e _
    exact ⟨ps, sw, 0, 0, Or.inr ⟨4, e, by decide, rfl⟩⟩
  · rename_i _ _ _ _ ps _ _ _ _ _ e _
    exact ⟨ps, 0, 0, 0, Or.inr ⟨3, e, by decide, rfl⟩⟩
  · rename_i _ _ _ _ ps _ _ e _
    exact ⟨ps, 0, 0, 0, Or.inr ⟨2, e, by decide, rfl⟩⟩
  · rename_i _ _ _ _ e _
    exact ⟨0, 0, 0, 0, Or.inr ⟨1, e, by decide, rfl⟩⟩
  · rename_i _ e _
    exact ⟨0, 0, 0, 0, Or.inr ⟨0, e, by decide, rfl⟩⟩

/-- A run either succeeds with the fulfilled record, or fails with the error of the one call
that was rejected, which is the last call of the record. -/
theorem run_cases {ε : Type} (env : Remote ε) (accounts : List Address) :
    ∃ ps sw nft role,
      (outcome env accounts = .ok () ∧
        events env accounts = fulfilledRun accounts ps sw nft role) ∨
      ∃ k e, k < 10 ∧ outcome env accounts = .error (.rejected e) ∧
        events env accounts = rejectedAt (fulfilledRun accounts ps sw nft role) k e := by
  obtain ⟨ps, sw, nft, role, h | ⟨k, e, hk, h⟩⟩ := migrate_shape env accounts
  · exact ⟨ps, sw, nft, role, Or.inl ⟨by simp [outcome, h], by simp [events, h]⟩⟩
  · exact ⟨ps, sw, nft, role, Or.inr ⟨k, e, hk, by simp [outcome, h], by simp [events, h]⟩⟩

/-- A successful run has the fulfilled record. -/
theorem success_events {ε : Type} (env : Remote ε) (accounts : List Address)
    (h : outcome env accounts = .ok ()) :
    ∃ ps sw nft role, events env accounts = fulfilledRun accounts ps sw nft role := by
  obtain ⟨ps, sw, nft, role, ⟨_, hev⟩ | ⟨k, e, _, ho, _⟩⟩ := run_cases env accounts
  · exact ⟨ps, sw, nft, role, hev⟩
  · rw [ho] at h; cases h

/-! ## Provisioning -/

/-- C1: in a run in which every issued call is fulfilled, the migration succeeds, the
deployments issued are exactly PaymentSplitter, Swap, PackNFT in this order (each once, so
Swap comes after PaymentSplitter), all three are fulfilled, and the handle table holds one
handle for each of the three, in the same order. -/
theorem provisioning_order {ε : Type} (env : Remote ε) (accounts : List Address)
    (h : ∀ ev ∈ events env accounts, ev.fulfilled = true) :
    outcome env accounts = .ok () ∧
      deployments (events env accounts) = [.PaymentSplitter, .Swap, .PackNFT] ∧
      provisioned (events env accounts) = [.PaymentSplitter, .Swap, .PackNFT] ∧
      (handles (events env accounts)).map Prod.fst = [.PaymentSplitter, .Swap, .PackNFT] := by
  obtain ⟨ps, sw, nft, role, ⟨ho, hev⟩ | ⟨k, e, hk, _, hev⟩⟩ := run_cases env accounts
  · refine ⟨ho, ?_⟩
    rw [hev]
    simp [deployments, provisioned, handles, fulfilledRun]
  · exfalso
    rw [hev] at h
    interval_cases k <;> simp [rejectedAt, fulfilledRun, Event.fulfilled] at h

/-- The statement of C1 at an environment that fulfils every call. -/
theorem provisioning_order_witness :
    (∀ ev ∈ events obliging tenAccounts, ev.fulfilled = true) ∧
      outcome obliging tenAccounts = .ok () ∧
      deployments (events obliging tenAccounts) = [.PaymentSplitter, .Swap, .PackNFT] ∧
      provisioned (events obliging tenAccounts) = [.PaymentSplitter, .Swap, .PackNFT] ∧
      (handles (events obliging tenAccounts)).map Prod.fst =
        [.PaymentSplitter, .Swap, .PackNFT] :=
  ⟨by decide, provisioning_order obliging tenAccounts (by decide)⟩

/-- C2: in a successful run the PaymentSplitter lookup resolved to some address, and for every
address `a` it resolved to, the Swap contract is deployed once, with `a` as its only
constructor argument; PackNFT is deployed once with the three string constants and no
handle. -/
theorem constructor_arguments {ε : Type} (env : Remote ε) (accounts : List Address)
    (h : outcome env accounts = .ok ()) :
    (∃ a, (Contract.PaymentSplitter, a) ∈ handles (events env accounts)) ∧
      (∀ a, (Contract.PaymentSplitter, a) ∈ handles (events env accounts) →
        constructorArgs (events env accounts) .Swap = [[.value (.address a)]]) ∧
      constructorArgs (events env accounts) .PackNFT =
        [[.value (.string "PAD Pack"), .value (.string "PADP"),
          .value (.string "https://padtcg.com/")]] := by
  obtain ⟨ps, sw, nft, role, hev⟩ := success_events env accounts h
  rw [hev]
  refine ⟨⟨ps, ?_⟩, ?_, ?_⟩
  · simp [handles, fulfilledRun]
  · intro a ha
    simp [handles, fulfilledRun] at ha
    subst ha
    simp [constructorArgs, fulfilledRun]
  · simp [constructorArgs, fulfilledRun, tokenName, tokenSymbol, tokenBaseURI]

/-- The statement of C2 at an environment that fulfils every call and resolves the
PaymentSplitter lookup to address 100. -/
theorem constructor_arguments_witness :
    outcome obliging tenAccounts = .ok () ∧
      (Contract.PaymentSplitter, 100) ∈ handles (events obliging tenAccounts) ∧
      constructorArgs (events obliging tenAccounts) .Swap = [[.value (.address 100)]] :=
  ⟨rfl, by decide, (constructor_arguments obliging tenAccounts rfl).2.1 100 (by decide)⟩

/-- C10: the PaymentSplitter is deployed once, in every run, with the arguments `payees` and
`shares`; both arrays have length 2 and every share is 1.  With at least ten accounts the
payees are the addresses at indices 8 and 9; with fewer than ten, a payee is `undefined`. -/
theorem payment_splitter_arguments {ε : Type} (env : Remote ε) (accounts : List Address) :
    constructorArgs (events env accounts) .PaymentSplitter =
        [[.array (payees accounts), .array shares]] ∧
      shares = [.number 1, .number 1] ∧
      (payees accounts).length = 2 ∧ shares.length = 2 ∧
      (10 ≤ accounts.length → ∃ a8 a9, accounts[8]? = some a8 ∧ accounts[9]? = some a9 ∧
        payees accounts = [.address a8, .address a9]) ∧
      (accounts.length < 10 → Value.undefined ∈ payees accounts) := by
  refine ⟨?_, rfl, rfl, rfl, ?_, ?_⟩
  · obtain ⟨ps, sw, nft, role, ⟨_, hev⟩ | ⟨k, e, hk, _, hev⟩⟩ := run_cases env accounts
    · rw [hev]
      simp [constructorArgs, fulfilledRun]
    · rw [hev]
      interval_cases k <;> simp [constructorArgs, rejectedAt, fulfilledRun]
  · intro hlen
    have h8 : 8 < accounts.length := by omega
    have h9 : 9 < accounts.length := by omega
    refine ⟨accounts[8], accounts[9], List.getElem?_eq_getElem h8, List.getElem?_eq_getElem h9, ?_⟩
    simp [payees, accountAt, List.getElem?_eq_getElem h8, List.getElem?_eq_getElem h9]
  · intro hlen
    have h9 : accounts[9]? = none := List.getElem?_eq_none (by omega)
    simp [payees, accountAt, h9]

/-- The statement of C10 at a list of ten accounts and at a list of two. -/
theorem payment_splitter_arguments_witness :
    (∃ a8 a9, tenAccounts[8]? = some a8 ∧ tenAccounts[9]? = some a9 ∧
        payees tenAccounts = [.address a8, .address a9]) ∧
      Value.undefined ∈ payees [1, 2] :=
  ⟨(payment_splitter_arguments obliging tenAccounts).2.2.2.2.1 (by decide),
    (payment_splitter_arguments obliging [1, 2]).2.2.2.2.2 (by decide)⟩

/-! ## Configuration -/

/-- C3: in a successful run exactly two tier registrations are issued, both fulfilled, both
`addSwap` calls on the Swap handle with the PackNFT handle as token, silver first and gold
second.  Silver carries the fee 35000000000000000 and the amount 50000, gold the fee
200000000000000000 and the amount 32000.  The fees are whole numbers of wei, they are what the
conversion of 0.035 and of 0.2 returns, they equal 0.035 and 0.2 times ten to the 18 exactly,
and all four numbers are positive. -/
theorem tier_registration {ε : Type} (env : Remote ε) (accounts : List Address)
    (h : outcome env accounts = .ok ()) :
    (∃ sw nft, (Contract.Swap, sw) ∈ handles (events env accounts) ∧
        (Contract.PackNFT, nft) ∈ handles (events env accounts) ∧
        tierRegistrations (events env accounts) =
          [⟨.addSwap sw nft ⟨35000000000000000, 0⟩ 50000, .ok .receipt⟩,
            ⟨.addSwap sw nft ⟨200000000000000000, 0⟩ 32000, .ok .receipt⟩]) ∧
      Units.convert ⟨35, 3⟩ .eth .wei = .ok ⟨35000000000000000, 0⟩ ∧
      Units.convert ⟨2, 1⟩ .eth .wei = .ok ⟨200000000000000000, 0⟩ ∧
      Decimal.toRat ⟨35000000000000000, 0⟩ = Decimal.toRat ⟨35, 3⟩ * 10 ^ 18 ∧
      Decimal.toRat ⟨200000000000000000, 0⟩ = Decimal.toRat ⟨2, 1⟩ * 10 ^ 18 ∧
      (∀ target token fee amount outcome,
        (⟨.addSwap target token fee amount, outcome⟩ : Event ε) ∈ events env accounts →
          fee.scale = 0 ∧ 0 < fee.digits ∧ 0 < amount) := by
  obtain ⟨ps, sw, nft, role, hev⟩ := success_events env accounts h
  rw [hev]
  refine ⟨⟨sw, nft, ?_, ?_, ?_⟩, rfl, rfl, ?_, ?_, ?_⟩
  · simp [handles, fulfilledRun]
  · simp [handles, fulfilledRun]
  · simp [tierRegistrations, isTierRegistration, fulfilledRun]
  · norm_num [Decimal.toRat]
  · norm_num [Decimal.toRat]
  · intro target token fee amount outcome hmem
    simp [fulfilledRun] at hmem
    rcases hmem with ⟨⟨_, _, rfl, rfl⟩, _⟩ | ⟨⟨_, _, rfl, rfl⟩, _⟩ <;> simp

/-- The statement of C3 at an environment that fulfils every call, with the Swap handle 200 and
the PackNFT handle 300. -/
theorem tier_registration_witness :
    outcome obliging tenAccounts = .ok () ∧
      tierRegistrations (events obliging tenAccounts) =
        [⟨.addSwap 200 300 ⟨35000000000000000, 0⟩ 50000, .ok .receipt⟩,
          ⟨.addSwap 200 300 ⟨200000000000000000, 0⟩ 32000, .ok .receipt⟩] ∧
      (∃ sw nft, (Contract.Swap, sw) ∈ handles (events obliging tenAccounts) ∧
        (Contract.PackNFT, nft) ∈ handles (events obliging tenAccounts) ∧
        tierRegistrations (events obliging tenAccounts) =
          [⟨.addSwap sw nft ⟨35000000000000000, 0⟩ 50000, .ok .receipt⟩,
            ⟨.addSwap sw nft ⟨200000000000000000, 0⟩ 32000, .ok .receipt⟩]) :=
  ⟨rfl, rfl, (tier_registration obliging tenAccounts rfl).1⟩

/-- C4: in every run the calls are issued in source order, and every call but the last was
fulfilled before the next one was issued.  A configuration step is issued only once the three
deployments are fulfilled.  The configuration steps are, in order, the grant, the silver
registration and the gold registration.  The grant is a `grantRole` call on the PackNFT handle,
its role is what `MINTER_ROLE()` on that handle resolved to and its grantee is the Swap handle;
it is fulfilled before a tier registration is issued. -/
theorem configuration_order {ε : Type} (env : Remote ε) (accounts : List Address) :
    (events env accounts).map (fun ev => ev.call.step) =
        pipeline.take (events env accounts).length ∧
      (events env accounts).dropLast.all Event.fulfilled = true ∧
      (∀ ev ∈ events env accounts, isConfigurationStep ev.call = true →
        provisioned ((events env accounts).takeWhile (fun ev => !isConfigurationStep ev.call)) =
          [.PaymentSplitter, .Swap, .PackNFT]) ∧
      (∃ sw nft role,
        (configurationSteps (events env accounts)).map (fun ev => ev.call) =
          ([.grantRole nft role sw, .addSwap sw nft ⟨35000000000000000, 0⟩ 50000,
            .addSwap sw nft ⟨200000000000000000, 0⟩ 32000] : List Call).take
            (configurationSteps (events env accounts)).length) ∧
      (∀ target role account outcome,
        (⟨.grantRole target role account, outcome⟩ : Event ε) ∈ events env accounts →
          (Contract.PackNFT, target) ∈ handles (events env accounts) ∧
          (Contract.Swap, account) ∈ handles (events env accounts) ∧
          (⟨.MINTER_ROLE target, .ok (.word role)⟩ : Event ε) ∈ events env accounts) ∧
      (∀ ev ∈ events env accounts, isTierRegistration ev.call = true →
        ∃ target role account, (⟨.grantRole target role account, .ok .receipt⟩ : Event ε) ∈
          (events env accounts).takeWhile (fun ev => !isTierRegistration ev.call)) := by
  obtain ⟨ps, sw, nft, role, ⟨_, hev⟩ | ⟨k, e, hk, _, hev⟩⟩ := run_cases env accounts
  · rw [hev]
    refine ⟨?_, ?_, ?_, ⟨sw, nft, role, ?_⟩, ?_, ?_⟩
    · simp [fulfilledRun, pipeline, Call.step]
    · simp [fulfilledRun, Event.fulfilled]
    · simp [fulfilledRun, isConfigurationStep, provisioned]
    · simp [fulfilledRun, configurationSteps, isConfigurationStep]
    · simp [fulfilledRun, handles]
      intro _ _ _ _ h1 h2 h3 _
      exact ⟨h1, h3, h1, h2⟩
    · simp [fulfilledRun, isTierRegistration]
  · rw [hev]
    refine ⟨?_, ?_, ?_, ⟨sw, nft, role, ?_⟩, ?_, ?_⟩
    · interval_cases k <;> simp [rejectedAt, fulfilledRun, pipeline, Call.step]
    · interval_cases k <;> simp [rejectedAt, fulfilledRun, Event.fulfilled]
    · interval_cases k <;> simp [rejectedAt, fulfilledRun, isConfigurationStep, provisioned]
    · interval_cases k <;>
        simp [rejectedAt, fulfilledRun, configurationSteps, isConfigurationStep]
    · interval_cases k <;> simp [rejectedAt, fulfilledRun, handles] <;>
        (intro _ _ _ _ h1 h2 h3 _; exact ⟨h1, h3, h1, h2⟩)
    · interval_cases k <;> simp [rejectedAt, fulfilledRun, isTierRegistration]

/-! ## Failure -/

/-- C5: number the remote operations of a run from 0 (three deployments, the role read, the
grant, two registrations).  If operation `k` was rejected with `e`, the run fails with `e`; the
remote operations issued are exactly the first `k + 1` of the fixed sequence, all but the
rejected one fulfilled; the rejected operation is the last call of the run, so it is not
retried and nothing follows it; and the calls of the run are a prefix of the source order, so
no other call (none that undoes an applied one) is issued. -/
theorem abort_on_failure {ε : Type} (env : Remote ε) (accounts : List Address) (k : Nat)
    (c : Call) (e : ε)
    (h : (remoteOperations (events env accounts))[k]? = some ⟨c, .error e⟩) :
    outcome env accounts = .error (.rejected e) ∧
      (remoteOperations (events env accounts)).map (fun ev => ev.call.step) =
        operations.take (k + 1) ∧
      (remoteOperations (events env accounts)).dropLast.all Event.fulfilled = true ∧
      (events env accounts).getLast? = some ⟨c, .error e⟩ ∧
      (events env accounts).map (fun ev => ev.call.step) =
        pipeline.take (events env accounts).length := by
  obtain ⟨ps, sw, nft, role, ⟨_, hev⟩ | ⟨j, e1, hj, ho, hev⟩⟩ := run_cases env accounts
  · exfalso
    rw [hev] at h
    rcases k with _ | _ | _ | _ | _ | _ | _ | k <;>
      simp [remoteOperations, isRemoteOperation, fulfilledRun] at h
  · rw [hev] at h ⊢
    rw [ho]
    interval_cases j <;> rcases k with _ | _ | _ | _ | _ | _ | _ | k <;>
      simp [remoteOperations, isRemoteOperation, fulfilledRun, rejectedAt] at h <;>
      (obtain ⟨rfl, rfl⟩ := h
       simp [remoteOperations, isRemoteOperation, fulfilledRun, rejectedAt, operations,
        pipeline, Call.step, Event.fulfilled])

/-- The statement of C5 at an environment that rejects the PackNFT deployment, which is the
remote operation number 2. -/
theorem abort_on_failure_witness :
    (remoteOperations (events (rejectingAfter 4) tenAccounts))[2]? =
        some ⟨.deploy .PackNFT [.value (.string "PAD Pack"), .value (.string "PADP"),
          .value (.string "https://padtcg.com/")], .error "reverted"⟩ ∧
      outcome (rejectingAfter 4) tenAccounts = .error (.rejected "reverted") ∧
      (remoteOperations (events (rejectingAfter 4) tenAccounts)).map (fun ev => ev.call.step) =
        [.deploy .PaymentSplitter, .deploy .Swap, .deploy .PackNFT] :=
  ⟨rfl, (abort_on_failure (rejectingAfter 4) tenAccounts 2 _ "reverted" rfl).1,
    (abort_on_failure (rejectingAfter 4) tenAccounts 2 _ "reverted" rfl).2.1⟩

/-- C9 as stated fails.  A reference is resolved by the `deployed()` lookup, so a failure to
resolve it is a rejected lookup.  At an environment that rejects the PackNFT deployment, PackNFT
(which every configuration step references) is not in the handle table, the run fails with the
error of the deployment, the rejected deployment is the last call, and no lookup is rejected:
it is not true that a missing component makes the run fail with the error of resolving it. -/
theorem unresolved_reference_counterexample :
    Contract.PackNFT ∉ (handles (events (rejectingAfter 4) tenAccounts)).map Prod.fst ∧
      outcome (rejectingAfter 4) tenAccounts = .error (.rejected "reverted") ∧
      (events (rejectingAfter 4) tenAccounts).getLast? =
        some ⟨.deploy .PackNFT [.value (.string "PAD Pack"), .value (.string "PADP"),
          .value (.string "https://padtcg.com/")], .error "reverted"⟩ ∧
      ¬ (∀ c, c ∉ (handles (events (rejectingAfter 4) tenAccounts)).map Prod.fst →
        ∃ e, (⟨.deployed c, .error e⟩ : Event String) ∈ events (rejectingAfter 4) tenAccounts ∧
          outcome (rejectingAfter 4) tenAccounts = .error (.rejected e)) := by
  have hev : events (rejectingAfter 4) tenAccounts =
      rejectedAt (fulfilledRun tenAccounts 100 200 300 7) 4 "reverted" := rfl
  refine ⟨by decide, rfl, rfl, ?_⟩
  intro hall
  obtain ⟨e, hmem, _⟩ := hall .PackNFT (by decide)
  rw [hev] at hmem
  simp [rejectedAt, fulfilledRun] at hmem

/-- C9, amended: if a component is not in the handle table at the end of a run, then no
configuration call (no role read, no grant, no registration) was issued, and the run failed
with the error of the call that was rejected, which is the last call of the run. -/
theorem missing_handle_aborts {ε : Type} (env : Remote ε) (accounts : List Address)
    (c : Contract) (h : c ∉ (handles (events env accounts)).map Prod.fst) :
    (events env accounts).filter (fun ev => isConfigurationCall ev.call) = [] ∧
      ∃ call e, (events env accounts).getLast? = some ⟨call, .error e⟩ ∧
        outcome env accounts = .error (.rejected e) := by
  obtain ⟨ps, sw, nft, role, ⟨_, hev⟩ | ⟨j, e1, hj, ho, hev⟩⟩ := run_cases env accounts
  · exfalso
    rw [hev] at h
    cases c <;> simp [fulfilledRun, handles] at h
  · rw [hev] at h ⊢
    rw [ho]
    interval_cases j <;> cases c <;> simp [fulfilledRun, rejectedAt, handles] at h <;>
      simp [fulfilledRun, rejectedAt, isConfigurationCall]

/-- The statement of the amended C9 at an environment that rejects the PackNFT deployment. -/
theorem missing_handle_aborts_witness :
    Contract.PackNFT ∉ (handles (events (rejectingAfter 4) tenAccounts)).map Prod.fst ∧
      (events (rejectingAfter 4) tenAccounts).filter
        (fun ev => isConfigurationCall ev.call) = [] ∧
      ∃ call e, (events (rejectingAfter 4) tenAccounts).getLast? = some ⟨call, .error e⟩ ∧
        outcome (rejectingAfter 4) tenAccounts = .error (.rejected e) :=
  ⟨by decide, missing_handle_aborts (rejectingAfter 4) tenAccounts .PackNFT (by decide)⟩

/-! ## Unit conversion -/

/-- An amount is a whole number of smallest units at precision `p` exactly when it has at most
`p` significant fractional digits. -/
theorem representable_iff (p : Nat) (s m : Nat) :
    (m * 10 ^ p) % 10 ^ s = 0 ↔ significantScale m s ≤ p := by
  induction s generalizing m with
  | zero => simp [significantScale, Nat.mod_one]
  | succ s ih =>
    rw [← Nat.dvd_iff_mod_eq_zero]
    unfold significantScale
    by_cases hm : m % 10 = 0
    · rw [if_pos hm, ← ih (m / 10), ← Nat.dvd_iff_mod_eq_zero]
      obtain ⟨q, rfl⟩ := Nat.dvd_of_mod_eq_zero hm
      rw [Nat.mul_div_cancel_left q (by decide : 0 < 10), pow_succ, mul_comm (10 ^ s) 10,
        mul_assoc]
      exact Nat.mul_dvd_mul_iff_left (by decide : 0 < 10)
    · rw [if_neg hm]
      constructor
      · intro hd
        by_contra hlt
        have hps : p ≤ s := by omega
        have hsplit : 10 ^ (s + 1) = 10 ^ p * 10 ^ (s + 1 - p) := by
          rw [← pow_add]; congr 1; omega
        rw [hsplit, mul_comm m] at hd
        have hd2 : 10 ^ (s + 1 - p) ∣ m :=
          (Nat.mul_dvd_mul_iff_left (pow_pos (by decide : 0 < 10) p)).1 hd
        have h10 : 10 ∣ 10 ^ (s + 1 - p) := dvd_pow_self 10 (by omega)
        exact hm (Nat.mod_eq_zero_of_dvd (h10.trans hd2))
      · intro hle
        exact (pow_dvd_pow 10 hle).trans (Dvd.intro_left m rfl)

/-- The conversion returns the quotient when the amount is representable. -/
theorem toSmallestUnit_ok (p : Nat) (d : Decimal)
    (h : (d.digits * 10 ^ p) % 10 ^ d.scale = 0) :
    toSmallestUnit p d = .ok (d.digits * 10 ^ p / 10 ^ d.scale) := by
  unfold toSmallestUnit
  exact if_pos h

/-- The conversion fails when the amount is not representable. -/
theorem toSmallestUnit_error (p : Nat) (d : Decimal)
    (h : ¬ (d.digits * 10 ^ p) % 10 ^ d.scale = 0) :
    toSmallestUnit p d = .error .notRepresentable := by
  unfold toSmallestUnit
  exact if_neg h

/-- A whole number of wei is always converted to eth, as a decimal with 18 places. -/
theorem convert_wei_eth (n : Nat) : Units.convert ⟨n, 0⟩ .wei .eth = .ok ⟨n, 18⟩ := by
  have h0 : toSmallestUnit 0 ⟨n, 0⟩ = .ok n := by
    rw [toSmallestUnit_ok 0 ⟨n, 0⟩ (by simp [Nat.mod_one])]
    simp
  unfold Units.convert
  simp only [UnitName.precision]
  rw [h0]

/-- C6: a decimal with more than 18 significant fractional digits is not converted from eth to
wei: the conversion fails with the unit-conversion error and returns no amount at all. -/
theorem convert_excess_precision (d : Decimal) (h : 18 < d.fractionalDigits) :
    Units.convert d .eth .wei = .error .notRepresentable ∧
      ∀ r, Units.convert d .eth .wei ≠ .ok r := by
  have hrep : ¬ (d.digits * 10 ^ 18) % 10 ^ d.scale = 0 := by
    rw [representable_iff]
    unfold Decimal.fractionalDigits at h
    omega
  have hfail : Units.convert d .eth .wei = .error .notRepresentable := by
    unfold Units.convert
    simp only [UnitName.precision]
    rw [toSmallestUnit_error 18 d hrep]
  refine ⟨hfail, ?_⟩
  intro r hr
  rw [hfail] at hr
  cases hr

/-- The statement of C6 at the decimal with a one in the nineteenth place. -/
theorem convert_excess_precision_witness :
    18 < Decimal.fractionalDigits ⟨1, 19⟩ ∧
      Units.convert ⟨1, 19⟩ .eth .wei = .error .notRepresentable :=
  ⟨by decide, (convert_excess_precision ⟨1, 19⟩ (by decide)).1⟩

/-- C7: a decimal `d` with at most 18 significant fractional digits converts from eth to wei
into a whole number `n` with `n = d * 10 ^ 18` exactly, and converting `n` from wei back to eth
gives a decimal equal to `d`. -/
theorem convert_round_trip (d : Decimal) (h : d.fractionalDigits ≤ 18) :
    ∃ n : Nat, Units.convert d .eth .wei = .ok ⟨n, 0⟩ ∧
      (n : ℚ) = d.toRat * 10 ^ 18 ∧
      ∃ back, Units.convert ⟨n, 0⟩ .wei .eth = .ok back ∧ back.toRat = d.toRat := by
  have hrep : (d.digits * 10 ^ 18) % 10 ^ d.scale = 0 :=
    (representable_iff 18 d.scale d.digits).2 h
  have hdvd : 10 ^ d.scale ∣ d.digits * 10 ^ 18 := Nat.dvd_of_mod_eq_zero hrep
  have hpow : ((10 ^ d.scale : ℕ) : ℚ) ≠ 0 := by positivity
  have hn : ((d.digits * 10 ^ 18 / 10 ^ d.scale : ℕ) : ℚ) = d.toRat * 10 ^ 18 := by
    rw [Nat.cast_div hdvd hpow]
    unfold Decimal.toRat
    push_cast
    ring
  refine ⟨d.digits * 10 ^ 18 / 10 ^ d.scale, ?_, hn, ⟨d.digits * 10 ^ 18 / 10 ^ d.scale, 18⟩,
    convert_wei_eth _, ?_⟩
  · unfold Units.convert
    simp only [UnitName.precision]
    rw [toSmallestUnit_ok 18 d hrep]
  · show ((d.digits * 10 ^ 18 / 10 ^ d.scale : ℕ) : ℚ) / 10 ^ 18 = d.toRat
    rw [hn]
    field_simp

/-- The statement of C7 at the silver fee 0.035. -/
theorem convert_round_trip_witness :
    Decimal.fractionalDigits ⟨35, 3⟩ ≤ 18 ∧
      ∃ n : Nat, Units.convert ⟨35, 3⟩ .eth .wei = .ok ⟨n, 0⟩ ∧
        (n : ℚ) = Decimal.toRat ⟨35, 3⟩ * 10 ^ 18 ∧
        ∃ back, Units.convert ⟨n, 0⟩ .wei .eth = .ok back ∧
          back.toRat = Decimal.toRat ⟨35, 3⟩ :=
  ⟨by decide, convert_round_trip ⟨35, 3⟩ (by decide)⟩

/-! ## Network profiles -/

/-- C8 as stated fails: the development profile sets no `confirmations`, so not every profile
sets it to an integer that is at least 1. -/
theorem confirmations_counterexample :
    ¬ ∀ entry ∈ networks "mnemonic" 0, ∃ n, entry.2.confirmations = some n ∧ 1 ≤ n := by
  intro hall
  obtain ⟨n, hn, _⟩ := hall (networks "mnemonic" 0)[0] (by simp [networks])
  simp [networks] at hn

/-- C8, amended: the profiles are development, testnet and bsc; testnet and bsc set
`confirmations` to 10, which is at least 1, and development does not set it. -/
theorem profile_confirmations (mnemonic : String) (deployAddress : Address) :
    (networks mnemonic deployAddress).map (fun entry => (entry.1, entry.2.confirmations)) =
        [("development", none), ("testnet", some 10), ("bsc", some 10)] ∧
      (∀ entry ∈ networks mnemonic deployAddress, entry.1 ≠ "development" →
        ∃ n, entry.2.confirmations = some n ∧ 1 ≤ n) ∧
      ∀ entry ∈ networks mnemonic deployAddress, entry.1 = "development" →
        entry.2.confirmations = none := by
  refine ⟨rfl, ?_, ?_⟩
  · intro entry hmem hname
    simp [networks] at hmem
    rcases hmem with rfl | rfl | rfl
    · exact absurd rfl hname
    · exact ⟨10, rfl, by decide⟩
    · exact ⟨10, rfl, by decide⟩
  · intro entry hmem hname
    simp [networks] at hmem
    rcases hmem with rfl | rfl | rfl
    · rfl
    · simp at hname
    · simp at hname

end PADPacks
